import Mathlib

/-!
Verification of the fee-calculation and status-derivation logic of the
school fee-management application (master ledger, student registration,
payment recording and dashboard views).

Monetary amounts are modelled as exact rationals (ℚ); nullable database
columns are modelled as `Option`; calendar dates are modelled as their
ISO `YYYY-MM-DD` strings, compared with the lexicographic string order,
exactly as the source compares them.
-/

/-- JavaScript `x || d` on a nullable numeric value: `null`/`undefined`
and `0` are falsy and select the default. -/
def jsOrQ (x : Option ℚ) (d : ℚ) : ℚ :=
  match x with
  | none => d
  | some v => if v = 0 then d else v

/-- JavaScript `s || d` on a string: the empty string is falsy. -/
def jsOrStr (x d : String) : String :=
  if x = "" then d else x

/-- Row of the `fee_types` table as selected by the views
(`id, name, default_amount, scheduled_date`). -/
structure FeeTypeRow where
  id : String
  name : String
  default_amount : Option ℚ
  scheduled_date : Option String
deriving DecidableEq

/-- Row of the `student_fee_types` join table as selected by the views,
with the joined fee type (`fee_type: fee_types (...)`), which is `null`
when the join finds no row. -/
structure StudentFeeType where
  assigned_amount : Option ℚ
  discount : Option ℚ
  discount_description : Option String
  net_payable_amount : Option ℚ
  fee_type : Option FeeTypeRow
deriving DecidableEq

/-- Master ledger, `fetchStudentsAndDetails`:
`const assignedAmount = sft.assigned_amount ?? feeTypeInfo?.default_amount ?? 0`. -/
def assignedAmount (sft : StudentFeeType) : ℚ :=
  sft.assigned_amount.getD ((sft.fee_type.bind FeeTypeRow.default_amount).getD 0)

/-- Master ledger: `const discount = sft.discount || 0`. -/
def discountOf (sft : StudentFeeType) : ℚ :=
  jsOrQ sft.discount 0

/-- Master ledger: `const netPayableForThisFee = assignedAmount - discount`. -/
def netPayableForThisFee (sft : StudentFeeType) : ℚ :=
  assignedAmount sft - discountOf sft

/-- Master ledger: the amount a single `student_fee_types` line adds to
`calculated_due_fees_this_moment`.  The whole block is guarded by
`if (feeTypeInfo)`; inside it, a line with a `scheduled_date` counts when
`feeTypeInfo.scheduled_date <= todayISO` (comparison of `YYYY-MM-DD`
strings) and a line without one always counts. -/
def dueContribution (todayISO : String) (sft : StudentFeeType) : ℚ :=
  match sft.fee_type with
  | none => 0
  | some feeTypeInfo =>
    match feeTypeInfo.scheduled_date with
    | some d => if d ≤ todayISO then netPayableForThisFee sft else 0
    | none => netPayableForThisFee sft

/-- Master ledger: `calculated_total_assigned_fees_for_student`, the sum of
`netPayableForThisFee` over the student's `student_fee_types` lines. -/
def calculated_total_assigned_fees (sfts : List StudentFeeType) : ℚ :=
  (sfts.map netPayableForThisFee).sum

/-- Master ledger: `calculated_due_fees_this_moment`, the sum of the due
contributions over the student's `student_fee_types` lines. -/
def calculated_due_fees_total (todayISO : String) (sfts : List StudentFeeType) : ℚ :=
  (sfts.map (dueContribution todayISO)).sum

/-- The two fee view modes of the master ledger page. -/
inductive FeeView where
  | total
  | due
deriving DecidableEq

/-- The four display statuses derived by `getDynamicStatus`. -/
inductive Status where
  | paid
  | partially_paid
  | unpaid
  | no_fees_due
deriving DecidableEq

/-- Body of `getDynamicStatus` after `feesToConsider` and `paid` have been
selected: the `0.009` epsilon test, then the `paid >= feesToConsider`,
`paid > 0 && paid < feesToConsider` cascade, `unpaid` otherwise. -/
def classify (feesToConsider paid : ℚ) : Status :=
  if feesToConsider ≤ 0.009 then
    if paid > 0 then Status.paid else Status.no_fees_due
  else if paid ≥ feesToConsider then Status.paid
  else if paid > 0 ∧ paid < feesToConsider then Status.partially_paid
  else Status.unpaid

/-- Master ledger `getDynamicStatus`: select the fee total by view mode
(`feeViewType === 'total' ? calculated_total_assigned_fees :
calculated_due_fees_total`), default the paid figure with
`student.totalPaid || 0`, and classify. -/
def getDynamicStatus (feeViewType : FeeView) (calcTotalAssigned calcDueTotal : ℚ)
    (totalPaidField : Option ℚ) : Status :=
  classify
    (match feeViewType with
      | FeeView.total => calcTotalAssigned
      | FeeView.due => calcDueTotal)
    (jsOrQ totalPaidField 0)

/-- Row of the `payments` table as selected by the ledger and dashboard
(`date, amount_paid, mode_of_payment, receipt_number`). -/
structure Payment where
  date : String
  amount_paid : ℚ
  mode_of_payment : String
  receipt_number : String
deriving DecidableEq

/-- Payment aggregator, identical in the master ledger and the dashboard:
`s.payments?.reduce((sum, p) => sum + p.amount_paid, 0) || 0`. -/
def totalPaid (payments : Option (List Payment)) : ℚ :=
  jsOrQ (payments.map (fun ps => ps.foldl (fun sum p => sum + p.amount_paid) 0)) 0

/-- Student registration page, `fetchStudents`:
`assigned_amount: sft.assigned_amount || sft.fee_type?.default_amount || 0`
(note `||`, so an explicit `0` also falls back to the default amount). -/
def regAssignedAmount (sft : StudentFeeType) : ℚ :=
  jsOrQ sft.assigned_amount (jsOrQ (sft.fee_type.bind FeeTypeRow.default_amount) 0)

/-- Student registration page, `fetchStudents`: `net_payable_amount:
sft.net_payable_amount || ((sft.assigned_amount || sft.fee_type?.default_amount || 0)
- (sft.discount || 0))`. -/
def regNetPayableAmount (sft : StudentFeeType) : ℚ :=
  jsOrQ sft.net_payable_amount (regAssignedAmount sft - jsOrQ sft.discount 0)

/-- Master ledger `handleExport`: a cell is wrapped in double quotes exactly
when it contains a comma (`c.includes(',') ? `"` + c + `"` : c`); cells are
modelled as the strings the export row builder produces. -/
def escapeCsvField (c : String) : String :=
  if c.contains ',' then "\"" ++ c ++ "\"" else c

/-- Master ledger `handleExport`: one output line, the escaped cells joined
with commas (`r.map(...).join(',')`). -/
def csvRow (r : List String) : String :=
  String.intercalate "," (r.map escapeCsvField)

/-- Master ledger `handleExport`: the list `[header, ...rows]` rendered
line by line. -/
def csvLines (header : List String) (rows : List (List String)) : List String :=
  (header :: rows).map csvRow

/-- Master ledger `handleExport`: the CSV text, the lines joined with
newlines (`[header, ...rows].map(...).join('\n')`). -/
def csvText (header : List String) (rows : List (List String)) : String :=
  String.intercalate "\n" (csvLines header rows)

/-- Master ledger `handleExport`: the download file name
`master-ledger-${view}-${selectedClassId || 'all'}-${feeViewType}-${today}.csv`. -/
def exportFileName (view selectedClassId feeViewType dateISO : String) : String :=
  "master-ledger-" ++ view ++ "-" ++ jsOrStr selectedClassId "all" ++ "-" ++
    feeViewType ++ "-" ++ dateISO ++ ".csv"

/-- The payment-amount form field as the validation in `handleSubmitPayment`
sees it: empty (`!amountPaid`), non-numeric (`isNaN(Number(amountPaid))`),
or a parsed numeric value. -/
inductive AmountInput where
  | empty
  | nonNumeric
  | numeric (value : ℚ)
deriving DecidableEq

/-- Fee collection page, `handleSubmitPayment` validation:
`!amountPaid || isNaN(Number(amountPaid)) || Number(amountPaid) <= 0`. -/
def amountInvalid : AmountInput → Bool
  | AmountInput.empty => true
  | AmountInput.nonNumeric => true
  | AmountInput.numeric v => decide (v ≤ 0)

/-- Row inserted into the `payments` table by `handleSubmitPayment`. -/
structure PaymentInsert where
  student_id : String
  school_id : String
  amount_paid : ℚ
  date : String
  mode_of_payment : String
  description : Option String
  receipt_number : String
deriving DecidableEq

/-- Fee collection page: `manualReceiptNumber.trim() ? manualReceiptNumber.trim()
: generated fallback receipt string`. -/
def generatedReceiptNumber (manualReceiptNumber fallback : String) : String :=
  if manualReceiptNumber.trim ≠ "" then manualReceiptNumber.trim else fallback

/-- Fee collection page: `description: description.trim() || null`. -/
def descriptionOrNull (description : String) : Option String :=
  if description.trim = "" then none else some description.trim

/-- Fee collection page: the `paymentData` row built by `handleSubmitPayment`. -/
def paymentData (student_id school_id : String) (value : ℚ) (nowISO mode description
    manualReceiptNumber fallbackReceipt : String) : PaymentInsert :=
  { student_id := student_id
    school_id := school_id
    amount_paid := value
    date := nowISO
    mode_of_payment := mode
    description := descriptionOrNull description
    receipt_number := generatedReceiptNumber manualReceiptNumber fallbackReceipt }

/-- Fee collection page, `handleSubmitPayment`: guard on a selected student
and a school id, validate the amount, then insert one `paymentData` row into
the `payments` table.  The result is the table after the call together with
the error toast, if any (`none` means the insert ran). -/
def handleSubmitPayment (paymentsTable : List PaymentInsert)
    (selectedStudent schoolId : Option String) (amountPaid : AmountInput)
    (nowISO mode description manualReceiptNumber fallbackReceipt : String) :
    List PaymentInsert × Option String :=
  match selectedStudent with
  | none => (paymentsTable, some "Please select a student.")
  | some sid =>
    match schoolId with
    | none => (paymentsTable, some "School information is missing.")
    | some scid =>
      if amountInvalid amountPaid then
        (paymentsTable, some "Enter a valid payment amount.")
      else
        match amountPaid with
        | AmountInput.numeric v =>
          (paymentsTable ++
            [paymentData sid scid v nowISO mode description manualReceiptNumber
              fallbackReceipt], none)
        | _ => (paymentsTable, some "Enter a valid payment amount.")

/-! ## Helper lemmas -/

theorem jsOrQ_some_zero (v : ℚ) : jsOrQ (some v) 0 = v := by
  by_cases h : v = 0 <;> simp [jsOrQ, h]

/-! ## Status classifier (claims C1, C3, C10) -/

/-- C1 (counterexample): at fee total 0.01 and paid 0 the claim predicts
`no_fees_due`, but the classifier's epsilon is 0.009, so 0.01 falls in the
general branch and the result is `unpaid`. -/
theorem classify_epsilon_claim_counterexample :
    (0 : ℚ) ≤ 0 ∧ (0.01 : ℚ) ≤ 0.01 ∧
      classify 0.01 0 = Status.unpaid ∧ Status.unpaid ≠ Status.no_fees_due := by
  refine ⟨le_refl 0, le_refl 0.01, ?_, by decide⟩
  simp only [classify]
  norm_num

/-- C1 (amended): for a chosen fee total F and total paid P ≥ 0, with the
epsilon the code actually uses (0.009, not 0.01): if F ≤ 0.009 the status is
`paid` when P > 0 and `no_fees_due` when P = 0; otherwise it is `paid` when
P ≥ F, `partially_paid` when 0 < P < F, and `unpaid` when P = 0. -/
theorem classify_status_derivation (F P : ℚ) (hP : 0 ≤ P) :
    (F ≤ 0.009 →
      (0 < P → classify F P = Status.paid) ∧
      (P = 0 → classify F P = Status.no_fees_due)) ∧
    (0.009 < F →
      (F ≤ P → classify F P = Status.paid) ∧
      (0 < P → P < F → classify F P = Status.partially_paid) ∧
      (P = 0 → classify F P = Status.unpaid)) := by
  constructor
  · intro hF
    constructor
    · intro hP0
      simp only [classify]
      rw [if_pos hF, if_pos hP0]
    · intro hP0
      simp only [classify]
      rw [if_pos hF, if_neg (by rw [hP0]; exact lt_irrefl 0)]
  · intro hF
    refine ⟨fun hFP => ?_, fun hP0 hPF => ?_, fun hP0 => ?_⟩
    · simp only [classify]
      rw [if_neg (not_le.mpr hF), if_pos hFP]
    · simp only [classify]
      rw [if_neg (not_le.mpr hF), if_neg (not_le.mpr hPF), if_pos ⟨hP0, hPF⟩]
    · subst hP0
      simp only [classify]
      rw [if_neg (not_le.mpr hF), if_neg (not_le.mpr (by linarith)),
        if_neg (by rintro ⟨h0, -⟩; exact lt_irrefl 0 h0)]

/-- Witness for the amended C1 theorem at F = 100, P = 30. -/
theorem classify_status_derivation_witness :
    classify 100 30 = Status.partially_paid :=
  ((classify_status_derivation 100 30 (by norm_num)).2 (by norm_num)).2.1
    (by norm_num) (by norm_num)

/-- C3 (counterexample): a student with paid = 0 and totalAssigned = 0.005 > 0
gets `no_fees_due` in the assigned view, not `unpaid`, because 0.005 is under
the 0.009 epsilon. -/
theorem unpaid_claim_counterexample :
    (0 : ℚ) < 0.005 ∧
      getDynamicStatus FeeView.total 0.005 0 (some 0) = Status.no_fees_due ∧
      Status.no_fees_due ≠ Status.unpaid := by
  refine ⟨by norm_num, ?_, by decide⟩
  simp only [getDynamicStatus, jsOrQ, classify]
  norm_num

/-- C3 (amended): if paid = 0 and totalAssigned > 0.009, the assigned-view
status is `unpaid`. -/
theorem assigned_view_zero_paid_unpaid (a d : ℚ) (h : 0.009 < a) :
    getDynamicStatus FeeView.total a d (some 0) = Status.unpaid := by
  have h0 : (0 : ℚ) < 0.009 := by norm_num
  simp only [getDynamicStatus, jsOrQ_some_zero, classify]
  rw [if_neg (not_le.mpr h), if_neg (not_le.mpr (by linarith)),
    if_neg (by rintro ⟨hlt, -⟩; exact lt_irrefl 0 hlt)]

/-- Witness for the amended C3 theorem at totalAssigned = 100. -/
theorem assigned_view_zero_paid_unpaid_witness :
    getDynamicStatus FeeView.total 100 0 (some 0) = Status.unpaid :=
  assigned_view_zero_paid_unpaid 100 0 (by norm_num)

/-- C10: the classifier never returns `unpaid` when anything positive is
paid; `unpaid` forces paid ≤ 0. -/
theorem classify_unpaid_needs_zero_paid (F P : ℚ) :
    (0 < P → classify F P ≠ Status.unpaid) ∧
    (classify F P = Status.unpaid → P ≤ 0) := by
  have key2 : classify F P = Status.unpaid → P ≤ 0 := by
    intro hEq
    by_contra hP
    push_neg at hP
    simp only [classify] at hEq
    by_cases h1 : F ≤ 0.009
    · rw [if_pos h1] at hEq
      by_cases h2 : P > 0
      · rw [if_pos h2] at hEq
        exact Status.noConfusion hEq
      · rw [if_neg h2] at hEq
        exact Status.noConfusion hEq
    · rw [if_neg h1] at hEq
      by_cases h2 : P ≥ F
      · rw [if_pos h2] at hEq
        exact Status.noConfusion hEq
      · rw [if_neg h2] at hEq
        by_cases h3 : P > 0 ∧ P < F
        · rw [if_pos h3] at hEq
          exact Status.noConfusion hEq
        · exact h3 ⟨hP, not_le.mp h2⟩
  exact ⟨fun hP hEq => absurd (key2 hEq) (not_le.mpr hP), key2⟩

/-- Witness for the C10 theorem at F = 5, P = 1. -/
theorem classify_unpaid_needs_zero_paid_witness :
    classify 5 1 ≠ Status.unpaid :=
  (classify_unpaid_needs_zero_paid 5 1).1 (by norm_num)

/-! ## Fee assignment resolver (claims C2, C4, C9, C5) -/

/-- Filter following the words of the amended C4: a line counts toward the
due total exactly when its joined fee type is present and that fee type's
scheduled date is absent or at most the reference date. -/
def amendedDueFilter (todayISO : String) (sft : StudentFeeType) : Bool :=
  match sft.fee_type with
  | none => false
  | some feeTypeInfo =>
    match feeTypeInfo.scheduled_date with
    | none => true
    | some d => decide (d ≤ todayISO)

/-- Definition written from the claim's words, for comparison with the code:
totalDue as the sum of net payable over exactly those assignments whose
scheduled date (reached through the nullable fee-type join) is absent or is
at most the reference date. -/
def claimDueFilter (todayISO : String) (sft : StudentFeeType) : Bool :=
  match sft.fee_type.bind FeeTypeRow.scheduled_date with
  | none => true
  | some d => decide (d ≤ todayISO)

/-- Definition written from the claim's words: the due total it describes. -/
def claim_totalDue (todayISO : String) (sfts : List StudentFeeType) : ℚ :=
  ((sfts.filter (claimDueFilter todayISO)).map netPayableForThisFee).sum

/-- A line whose fee-type join returned `null`. -/
def missingFeeTypeLine : StudentFeeType :=
  { assigned_amount := some 100
    discount := some 0
    discount_description := none
    net_payable_amount := none
    fee_type := none }

/-- A line whose discount exceeds its assigned amount and which is outside
the due subset (its fee-type join returned `null`). -/
def negativeDiscountLine : StudentFeeType :=
  { assigned_amount := some 100
    discount := some 200
    discount_description := none
    net_payable_amount := none
    fee_type := none }

/-- A fee type whose scheduled date is exactly the reference date used below. -/
def onDateFeeType : FeeTypeRow :=
  { id := "ft2", name := "Exam", default_amount := some 50,
    scheduled_date := some "2024-05-01" }

/-- A line joined to `onDateFeeType`. -/
def onDateLine : StudentFeeType :=
  { assigned_amount := some 50
    discount := none
    discount_description := none
    net_payable_amount := none
    fee_type := some onDateFeeType }

theorem dueContribution_eq_ite (todayISO : String) (sft : StudentFeeType) :
    dueContribution todayISO sft =
      if amendedDueFilter todayISO sft then netPayableForThisFee sft else 0 := by
  unfold dueContribution amendedDueFilter
  cases h : sft.fee_type with
  | none => simp
  | some ft =>
    cases hd : ft.scheduled_date with
    | none => simp [hd]
    | some d => by_cases hle : d ≤ todayISO <;> simp [hd, hle]

theorem sum_map_ite {α : Type} (p : α → Bool) (f : α → ℚ) (l : List α) :
    (l.map fun a => if p a then f a else 0).sum = ((l.filter p).map f).sum := by
  induction l with
  | nil => simp
  | cons a l ih => by_cases h : p a <;> simp [List.filter_cons, h, ih]

/-- C2 (counterexample): a line with discount 200 on an assigned amount of
100 sits outside the due subset, so totalAssigned = -100 while totalDue = 0:
totalAssigned ≥ totalDue fails without a precondition on discounts. -/
theorem totals_claim_counterexample :
    ¬ (calculated_due_fees_total "2024-01-01" [negativeDiscountLine] ≤
        calculated_total_assigned_fees [negativeDiscountLine]) := by
  norm_num [calculated_due_fees_total, calculated_total_assigned_fees, dueContribution,
    netPayableForThisFee, assignedAmount, discountOf, jsOrQ, negativeDiscountLine]

/-- C2 (amended): whenever every line's net payable is nonnegative (in
particular whenever each discount is at most its assigned amount), the due
total never exceeds the assigned total. -/
theorem totalAssigned_ge_totalDue (todayISO : String) (sfts : List StudentFeeType)
    (h : ∀ sft ∈ sfts, 0 ≤ netPayableForThisFee sft) :
    calculated_due_fees_total todayISO sfts ≤ calculated_total_assigned_fees sfts := by
  unfold calculated_due_fees_total calculated_total_assigned_fees
  refine List.sum_le_sum ?_
  intro sft hmem
  rw [dueContribution_eq_ite]
  by_cases hf : amendedDueFilter todayISO sft
  · rw [if_pos hf]
  · rw [if_neg hf]
    exact h sft hmem

/-- Witness for the amended C2 theorem on a single line with a discount
below its assigned amount. -/
theorem totalAssigned_ge_totalDue_witness :
    calculated_due_fees_total "2024-05-01" [onDateLine] ≤
      calculated_total_assigned_fees [onDateLine] := by
  refine totalAssigned_ge_totalDue "2024-05-01" [onDateLine] ?_
  intro sft hmem
  rw [List.mem_singleton] at hmem
  subst hmem
  norm_num [netPayableForThisFee, assignedAmount, discountOf, jsOrQ, onDateLine]

/-- C4 (counterexample): on a line whose fee-type join returned `null`, the
claim's due total (scheduled date absent, hence due) is 100, but the code's
due total is 0: the code's subset additionally requires the fee type to be
present. -/
theorem due_subset_claim_counterexample :
    calculated_due_fees_total "2024-01-01" [missingFeeTypeLine] ≠
      claim_totalDue "2024-01-01" [missingFeeTypeLine] := by
  norm_num [calculated_due_fees_total, claim_totalDue, claimDueFilter, dueContribution,
    List.filter, netPayableForThisFee, assignedAmount, discountOf, jsOrQ,
    missingFeeTypeLine]

/-- C4 (amended): net payable is assignedAmount - discount, not clamped;
totalAssigned sums it over all lines; totalDue sums it over exactly those
lines whose joined fee type is present and whose scheduled date is absent or
at most the reference date under the date-only comparison; and a line
scheduled exactly on the reference date counts as due. -/
theorem resolver_totals_characterization (todayISO : String) (sfts : List StudentFeeType) :
    calculated_total_assigned_fees sfts =
      (sfts.map fun sft => assignedAmount sft - discountOf sft).sum ∧
    calculated_due_fees_total todayISO sfts =
      ((sfts.filter (amendedDueFilter todayISO)).map netPayableForThisFee).sum ∧
    (∀ sft : StudentFeeType, ∀ ft : FeeTypeRow, sft.fee_type = some ft →
      ft.scheduled_date = some todayISO →
      dueContribution todayISO sft = netPayableForThisFee sft) := by
  refine ⟨rfl, ?_, ?_⟩
  · unfold calculated_due_fees_total
    rw [← sum_map_ite]
    congr 1
    exact List.map_congr_left fun sft _ => dueContribution_eq_ite todayISO sft
  · intro sft ft hft hsd
    simp [dueContribution, hft, hsd]

/-- Witness for the amended C4 theorem: a line scheduled exactly on the
reference date contributes its net payable to the due total. -/
theorem resolver_totals_characterization_witness :
    dueContribution "2024-05-01" onDateLine = netPayableForThisFee onDateLine :=
  (resolver_totals_characterization "2024-05-01" []).2.2 onDateLine onDateFeeType
    rfl rfl

/-- C9: a line whose joined fee type is `null` adds its net payable to the
assigned total and adds nothing to the due total, whatever the reference
date. -/
theorem missing_fee_type_contribution (todayISO : String) (sfts : List StudentFeeType)
    (sft : StudentFeeType) (h : sft.fee_type = none) :
    calculated_total_assigned_fees (sfts ++ [sft]) =
      calculated_total_assigned_fees sfts + netPayableForThisFee sft ∧
    calculated_due_fees_total todayISO (sfts ++ [sft]) =
      calculated_due_fees_total todayISO sfts := by
  constructor
  · simp [calculated_total_assigned_fees]
  · simp [calculated_due_fees_total, dueContribution, h]

/-- Witness for the C9 theorem on the concrete `null`-join line. -/
theorem missing_fee_type_contribution_witness :
    calculated_total_assigned_fees ([onDateLine] ++ [missingFeeTypeLine]) =
      calculated_total_assigned_fees [onDateLine] +
        netPayableForThisFee missingFeeTypeLine ∧
    calculated_due_fees_total "2024-01-01" ([onDateLine] ++ [missingFeeTypeLine]) =
      calculated_due_fees_total "2024-01-01" [onDateLine] :=
  missing_fee_type_contribution "2024-01-01" [onDateLine] missingFeeTypeLine rfl

/-! ## Defaulting behaviour (claim C5) -/

/-- A fee type with a configured default amount and no scheduled date. -/
def defaultedFeeType : FeeTypeRow :=
  { id := "ft3", name := "Lab", default_amount := some 75, scheduled_date := none }

/-- A line with no stored assigned amount, joined to `defaultedFeeType`. -/
def defaultedLine : StudentFeeType :=
  { assigned_amount := none
    discount := none
    discount_description := none
    net_payable_amount := none
    fee_type := some defaultedFeeType }

/-- C5: a missing assigned amount falls back to the fee type's default
amount and then to 0; a missing discount is 0; a student with no lines has
both totals 0; and, as the claim notes, the master ledger's `??` keeps an
explicit 0 while the registration page's `||` also replaces an explicit 0 by
the default amount. -/
theorem defaulting_behaviour :
    (∀ sft : StudentFeeType, sft.assigned_amount = none →
      assignedAmount sft = (sft.fee_type.bind FeeTypeRow.default_amount).getD 0) ∧
    (∀ sft : StudentFeeType, sft.discount = none → discountOf sft = 0) ∧
    (∀ todayISO : String,
      calculated_total_assigned_fees [] = 0 ∧
        calculated_due_fees_total todayISO [] = 0) ∧
    (∀ sft : StudentFeeType, sft.assigned_amount = some 0 → assignedAmount sft = 0) ∧
    (∀ sft : StudentFeeType, ∀ ft : FeeTypeRow, sft.assigned_amount = some 0 →
      sft.fee_type = some ft → regAssignedAmount sft = jsOrQ ft.default_amount 0) := by
  refine ⟨?_, ?_, ?_, ?_, ?_⟩
  · intro sft h
    simp [assignedAmount, h]
  · intro sft h
    simp [discountOf, jsOrQ, h]
  · intro todayISO
    constructor <;> simp [calculated_total_assigned_fees, calculated_due_fees_total]
  · intro sft h
    simp [assignedAmount, h]
  · intro sft ft h hft
    simp [regAssignedAmount, jsOrQ, h, hft]

/-- Witness for the C5 theorem: the concrete line with no stored assigned
amount resolves to its fee type's default amount. -/
theorem defaulting_behaviour_witness :
    assignedAmount defaultedLine =
      (defaultedLine.fee_type.bind FeeTypeRow.default_amount).getD 0 :=
  defaulting_behaviour.1 defaultedLine rfl

/-! ## Payment aggregator (claim C6) -/

theorem foldl_add_amount (init : ℚ) (ps : List Payment) :
    ps.foldl (fun sum p => sum + p.amount_paid) init =
      init + (ps.map Payment.amount_paid).sum := by
  induction ps generalizing init with
  | nil => simp
  | cons p ps ih => simp [ih, add_assoc]

/-- C6: the aggregator returns the sum of the payment amounts, 0 on a
missing or empty payment list, and 800 on amounts 500 and 300. -/
theorem totalPaid_sums_amounts :
    (∀ ps : List Payment, totalPaid (some ps) = (ps.map Payment.amount_paid).sum) ∧
    totalPaid none = 0 ∧
    totalPaid (some []) = 0 ∧
    totalPaid (some [⟨"2024-01-01", 500, "cash", "R-1"⟩,
      ⟨"2024-01-02", 300, "upi", "R-2"⟩]) = 800 := by
  have key : ∀ ps : List Payment,
      totalPaid (some ps) = (ps.map Payment.amount_paid).sum := by
    intro ps
    simp [totalPaid, foldl_add_amount, jsOrQ_some_zero]
  refine ⟨key, rfl, by simpa using key [], ?_⟩
  rw [key]
  norm_num

/-! ## CSV export (claim C7) -/

/-- C7: the export joins the header row and the escaped data rows with
newlines, the header row first; a cell is comma-separated within its line;
a cell containing a comma is wrapped in double quotes and one without is
kept as is; and the download file name carries the fee view mode and the
date as substrings. -/
theorem csv_export_shape :
    (∀ (header : List String) (rows : List (List String)),
      (csvLines header rows).head? = some (csvRow header) ∧
      csvText header rows = String.intercalate "\n" (csvLines header rows) ∧
      csvRow header = String.intercalate "," (header.map escapeCsvField)) ∧
    (∀ c : String, c.contains ',' = true → escapeCsvField c = "\"" ++ c ++ "\"") ∧
    (∀ c : String, c.contains ',' = false → escapeCsvField c = c) ∧
    (∀ view selectedClassId feeViewType dateISO : String,
      (∃ p q : String,
        exportFileName view selectedClassId feeViewType dateISO = p ++ (feeViewType ++ q)) ∧
      (∃ p q : String,
        exportFileName view selectedClassId feeViewType dateISO = p ++ (dateISO ++ q))) := by
  refine ⟨?_, ?_, ?_, ?_⟩
  · intro header rows
    exact ⟨by simp [csvLines], rfl, rfl⟩
  · intro c h
    simp [escapeCsvField, h]
  · intro c h
    simp [escapeCsvField, h]
  · intro view selectedClassId feeViewType dateISO
    constructor
    · refine ⟨"master-ledger-" ++ view ++ "-" ++ jsOrStr selectedClassId "all" ++ "-",
        "-" ++ dateISO ++ ".csv", ?_⟩
      simp [exportFileName, String.append_assoc]
    · refine ⟨"master-ledger-" ++ view ++ "-" ++ jsOrStr selectedClassId "all" ++ "-" ++
        feeViewType ++ "-", ".csv", ?_⟩
      simp [exportFileName, String.append_assoc]

/-- A concrete cell containing a comma. -/
def commaCell : String := String.mk ['a', ',', 'b']

/-- Witness for the C7 theorem: the concrete comma-holding cell is wrapped
in double quotes. -/
theorem csv_export_shape_witness :
    escapeCsvField commaCell = "\"" ++ commaCell ++ "\"" :=
  csv_export_shape.2.1 commaCell
    ((String.contains_iff commaCell ',').mpr (by decide))

/-! ## Payment recording (claim C8) -/

/-- C8: with a student selected and a school id present, an invalid amount
(empty, non-numeric, zero or negative) produces the error toast and leaves
the payments table unchanged; a numeric amount > 0 inserts exactly the built
payment row; and any call that changes the table had a numeric amount > 0. -/
theorem payment_validation (paymentsTable : List PaymentInsert) (sid scid : String)
    (amountPaid : AmountInput)
    (nowISO mode description manualReceiptNumber fallbackReceipt : String) :
    (amountInvalid amountPaid = true →
      handleSubmitPayment paymentsTable (some sid) (some scid) amountPaid nowISO mode
          description manualReceiptNumber fallbackReceipt =
        (paymentsTable, some "Enter a valid payment amount.")) ∧
    (∀ v : ℚ, amountPaid = AmountInput.numeric v → 0 < v →
      handleSubmitPayment paymentsTable (some sid) (some scid) amountPaid nowISO mode
          description manualReceiptNumber fallbackReceipt =
        (paymentsTable ++ [paymentData sid scid v nowISO mode description
          manualReceiptNumber fallbackReceipt], none)) ∧
    ((handleSubmitPayment paymentsTable (some sid) (some scid) amountPaid nowISO mode
          description manualReceiptNumber fallbackReceipt).1 ≠ paymentsTable →
      ∃ v : ℚ, amountPaid = AmountInput.numeric v ∧ 0 < v) := by
  refine ⟨?_, ?_, ?_⟩
  · intro hinv
    cases amountPaid with
    | empty => simp [handleSubmitPayment, amountInvalid]
    | nonNumeric => simp [handleSubmitPayment, amountInvalid]
    | numeric v =>
      simp only [amountInvalid, decide_eq_true_eq] at hinv
      simp [handleSubmitPayment, amountInvalid, hinv]
  · intro v hv hpos
    subst hv
    have hnot : ¬ (v ≤ 0) := not_le.mpr hpos
    simp [handleSubmitPayment, amountInvalid, hnot]
  · intro hchanged
    cases amountPaid with
    | empty => simp [handleSubmitPayment] at hchanged
    | nonNumeric => simp [handleSubmitPayment] at hchanged
    | numeric v =>
      refine ⟨v, rfl, ?_⟩
      by_contra hle
      push_neg at hle
      simp [handleSubmitPayment, amountInvalid, hle] at hchanged

/-- Witness for the C8 theorem: a 500 payment on a selected student inserts
exactly one row and raises no error. -/
theorem payment_validation_witness :
    handleSubmitPayment [] (some "s1") (some "c1") (AmountInput.numeric 500)
        "2024-01-01" "cash" "" "" "R-100" =
      ([] ++ [paymentData "s1" "c1" 500 "2024-01-01" "cash" "" "" "R-100"], none) :=
  (payment_validation [] "s1" "c1" (AmountInput.numeric 500) "2024-01-01" "cash" ""
    "" "R-100").2.1 500 rfl (by norm_num)
